import Mathlib

/-!
Shallow embedding of the Court Session & Permission state machine of
`src/src/hooks/useCourtSession.ts` (project-spark).

The hook `useCourtSession(caseId)` owns, per case, the local coordinator
state (`activeSession`, `permissionRequests`, `myPermission`) and issues
writes against three tables of the backing store (`session_logs`,
`permission_requests`, `case_diary`).  We embed:

* the rows of those tables (timestamps as milliseconds, `Nat`; ISO strings
  in the source are only ever produced from and compared as instants);
* the store as an explicit `DB` value; each supabase call that can fail is
  given an explicit `Bool` failure flag (supabase returns `\x7b data, error \x7d`
  and never throws, so a failed call simply takes the error branch — or,
  where the source ignores the result, no branch at all);
* each operation as a pure function
  `profile → args → state → db → result × state × db`,
  translated line by line from the source; a single `now` parameter stands
  for the (at most one tick apart) `new Date()` / `Date.now()` reads inside
  one operation;
* JavaScript truthiness where the source relies on it: `!profile?.id`,
  `!caseId`, `notes || activeSession.notes` (note `||`, not `??`).
-/

namespace ProjectSpark

/-- Session status (`type SessionStatus = 'active' | 'ended' | 'paused'`). -/
inductive SessionStatus where
  | active
  | ended
  | paused
  deriving DecidableEq

/-- Permission status (`'pending' | 'granted' | 'denied' | 'expired'`). -/
inductive PermissionStatus where
  | pending
  | granted
  | denied
  | expired
  deriving DecidableEq

/-- Row of `session_logs` (interface `CourtSession`); `created_at` and
`updated_at` are store bookkeeping never read by the hook and are omitted. -/
structure CourtSession where
  id : String
  case_id : String
  judge_id : String
  status : SessionStatus
  started_at : Nat
  ended_at : Option Nat
  notes : Option String
  deriving DecidableEq

/-- Row of `permission_requests` (interface `PermissionRequest`), including
the client-side `requester_name?` enrichment added by `fetchPermissions`. -/
structure PermissionRequest where
  id : String
  session_id : String
  case_id : String
  requester_id : String
  status : PermissionStatus
  requested_at : Nat
  responded_at : Option Nat
  responded_by : Option String
  requester_name : Option String
  deriving DecidableEq

/-- Structured `details` payload of a `case_diary` insert.  `SESSION_START`
sends only `session_id`; `SESSION_END` adds `duration_minutes` and
`notes_summary`. -/
structure DiaryDetails where
  session_id : String
  duration_minutes : Option Nat
  notes_summary : Option String
  deriving DecidableEq

/-- Row of `case_diary` as inserted by the hook. -/
structure DiaryEntry where
  case_id : String
  action : String
  actor_id : String
  details : DiaryDetails
  deriving DecidableEq

/-- The backing store: the three tables the hook writes, plus the
`(id, full_name)` pairs of `profiles` read by `fetchPermissions`. -/
structure DB where
  session_logs : List CourtSession
  permission_requests : List PermissionRequest
  case_diary : List DiaryEntry
  profiles : List (String × String)
  deriving DecidableEq

/-- The acting principal (`profile` from `useAuth`). -/
structure Profile where
  id : String
  role_category : String
  deriving DecidableEq

/-- The coordinator's in-memory state: the `useState` cells
`activeSession`, `permissionRequests`, `myPermission`. -/
structure CoordState where
  activeSession : Option CourtSession
  permissionRequests : List PermissionRequest
  myPermission : Option PermissionRequest
  deriving DecidableEq

/-- Source line 40: `const isJudge = profile?.role_category === 'judiciary'`. -/
def isJudge (profile : Option Profile) : Bool :=
  match profile with
  | some pr => decide (pr.role_category = "judiciary")
  | none => false

/-- Source line 41:
`const canUpload = myPermission?.status === 'granted' || isJudge`. -/
def canUpload (st : CoordState) (profile : Option Profile) : Bool :=
  (match st.myPermission with
   | some p => decide (p.status = PermissionStatus.granted)
   | none => false) || isJudge profile

/-- JavaScript `a || b` on nullable strings: `a` wins unless it is
`undefined`/`null` or the empty string (both falsy). -/
def jsOrStr (a b : Option String) : Option String :=
  match a with
  | some s => if s = "" then b else some s
  | none => b

/-- JavaScript `v || null` on a nullable string: collapses the falsy empty
string to `null`. -/
def jsTruthyOpt (v : Option String) : Option String :=
  match v with
  | some s => if s = "" then none else some s
  | none => none

/-- `Math.round((now − started_at) / 60000)` on a nonnegative millisecond
difference: round-half-up minutes. -/
def durationMinutes (deltaMs : Nat) : Nat :=
  (deltaMs + 30000) / 60000

/-- One step of a stable insertion sort by `requested_at` descending
(the `order('requested_at', \x7b ascending: false \x7d)` of the permissions
query). -/
def insertByRequestedDesc (p : PermissionRequest) :
    List PermissionRequest → List PermissionRequest
  | [] => [p]
  | q :: qs =>
    if p.requested_at ≤ q.requested_at then q :: insertByRequestedDesc p qs
    else p :: q :: qs

/-- Sort permission rows newest request first. -/
def sortByRequestedDesc (l : List PermissionRequest) : List PermissionRequest :=
  l.foldr insertByRequestedDesc []

/-- Lookup of a `full_name` in the `profiles` table (the `profileMap` of
`fetchPermissions`). -/
def lookupName (profiles : List (String × String)) (pid : String) : Option String :=
  (profiles.find? (fun q => decide (q.1 = pid))).map (fun q => q.2)

/-- Source lines 67–111, `fetchPermissions(sessionId?)`: query the
case's permission rows (narrowed to one session only when `sessionId` is
passed), enrich them with requester names, store the list, and — when the
principal has an id — recompute `myPermission` as the first row of the
caller with status pending or granted.  `queryFail` is the query's error
branch (state untouched); an empty `caseId` is falsy and returns early. -/
def fetchPermissionsFn (db : DB) (caseId : String) (profile : Option Profile)
    (sessionId : Option String) (queryFail : Bool) (st : CoordState) : CoordState :=
  if caseId = "" then st
  else if queryFail then st
  else
    let rows := sortByRequestedDesc (db.permission_requests.filter (fun p =>
      decide (p.case_id = caseId) &&
      (match sessionId with
       | some sid => decide (p.session_id = sid)
       | none => true)))
    let withNames := rows.map (fun p =>
      { p with requester_name := some ((lookupName db.profiles p.requester_id).getD "Unknown") })
    let myp : Option PermissionRequest :=
      match profile with
      | some pr =>
        if pr.id = "" then st.myPermission
        else withNames.find? (fun p =>
          decide (p.requester_id = pr.id ∧
            (p.status = PermissionStatus.pending ∨ p.status = PermissionStatus.granted)))
      | none => st.myPermission
    { st with permissionRequests := withNames, myPermission := myp }

/-- Realtime event kinds delivered by the change feed. -/
inductive EventType where
  | insertEv
  | updateEv
  | deleteEv
  deriving DecidableEq

/-- Source lines 319–339, the `session_logs` realtime handler: on INSERT or
UPDATE, a row with status `active` replaces the current session and reloads
its permissions; a row with status `ended` clears the session and the own
permission; anything else (in particular `paused`) falls through.  The
returned `Bool` records whether a permission reload was issued. -/
def onSessionEvent (profile : Option Profile) (caseId : String) (ev : EventType)
    (row : CourtSession) (queryFail : Bool) (st : CoordState) (db : DB) :
    CoordState × Bool :=
  match ev with
  | .deleteEv => (st, false)
  | _ =>
    if row.status = SessionStatus.active then
      (fetchPermissionsFn db caseId profile (some row.id) queryFail
        { st with activeSession := some row }, true)
    else if row.status = SessionStatus.ended then
      ({ st with activeSession := none, myPermission := none }, false)
    else (st, false)

/-- Source lines 349–351, the `permission_requests` realtime handler:
unconditionally `fetchPermissions(activeSession?.id)` — when no session is
loaded this passes `undefined`, i.e. reloads ALL permission rows of the
case, across sessions. -/
def onPermissionEvent (profile : Option Profile) (caseId : String)
    (queryFail : Bool) (st : CoordState) (db : DB) : CoordState :=
  fetchPermissionsFn db caseId profile (st.activeSession.map (fun s => s.id))
    queryFail st

/-- Result of one coordinator operation: the value returned to the view,
the new in-memory state, the new store. -/
structure Out (α : Type) where
  result : α
  state : CoordState
  db : DB
  deriving DecidableEq

/-- Outcomes of `startSession` (lines 114–154), one per return path:
`notAllowed` is the toast `Only judges can start a court session`,
`alreadyActive` is `A session is already active`, `storeError` is
`Failed to start session`, `ok` returns the inserted row. -/
inductive StartResult where
  | notAllowed
  | alreadyActive
  | storeError
  | ok (s : CourtSession)
  deriving DecidableEq

/-- Outcomes of `endSession` (lines 157–203): `rejected` is the toast
`Cannot end session` (covering non-judge, no loaded session and missing
profile alike), `storeError` is `Failed to end session`, `ok` is `true`. -/
inductive EndResult where
  | rejected
  | storeError
  | ok
  deriving DecidableEq

/-- Outcomes of `respondToPermission` (lines 266–290): `rejected` is
`Only judges can respond to permission requests`, `storeError` is
`Failed to update permission`, `ok` is `true`. -/
inductive RespondResult where
  | rejected
  | storeError
  | ok
  deriving DecidableEq

/-- Outcomes of `requestPermission` (lines 224–263): `noActiveSession` is
the toast `No active session` (also covering a missing profile id),
`existing` is the early idempotent return of a found row, `storeError` is
`Failed to request permission`, `created` returns the inserted row. -/
inductive ReqResult where
  | noActiveSession
  | existing (p : PermissionRequest)
  | storeError
  | created (p : PermissionRequest)
  deriving DecidableEq

/-- Source lines 114–154, `startSession()`: judge-only guard (line 115,
`!isJudge || !profile?.id || !caseId`), local already-active guard
(line 121), insert of an `active` session row (`newId` is the id the store
assigns), best-effort `SESSION_START` diary append whose result the source
never reads, then the optimistic `setActiveSession`. -/
def startSession (profile : Option Profile) (caseId : String) (now : Nat)
    (newId : String) (insertFail : Bool) (diaryFail : Bool)
    (st : CoordState) (db : DB) : Out StartResult :=
  match profile with
  | none => ⟨StartResult.notAllowed, st, db⟩
  | some pr =>
    if isJudge (some pr) = false ∨ pr.id = "" ∨ caseId = "" then
      ⟨StartResult.notAllowed, st, db⟩
    else
      match st.activeSession with
      | some _ => ⟨StartResult.alreadyActive, st, db⟩
      | none =>
        if insertFail then ⟨StartResult.storeError, st, db⟩
        else
          let s : CourtSession :=
            { id := newId, case_id := caseId, judge_id := pr.id,
              status := SessionStatus.active, started_at := now,
              ended_at := none, notes := none }
          let db1 : DB := { db with session_logs := s :: db.session_logs }
          let db2 : DB :=
            if diaryFail then db1
            else { db1 with case_diary := db1.case_diary ++
              [{ case_id := caseId, action := "SESSION_START", actor_id := pr.id,
                 details := { session_id := newId, duration_minutes := none,
                              notes_summary := none } }] }
          ⟨StartResult.ok s, { st with activeSession := some s }, db2⟩

/-- Source lines 157–203, `endSession(notes?)`: the single guard
`!isJudge || !activeSession || !profile?.id` (line 158); an update of the
session row to `ended`/`ended_at = now`/`notes = notes || activeSession.notes`
whose failure aborts the operation; a bulk update of the session's
`pending` permission rows to `expired` whose result the source never
reads (so `expireFail` changes nothing but the store); a best-effort
`SESSION_END` diary append with
`duration_minutes = Math.round((now − started_at)/60000)` and
`notes_summary = notes || activeSession.notes || null`; then
`setActiveSession(null)`, `setMyPermission(null)`. -/
def endSession (profile : Option Profile) (caseId : String) (now : Nat)
    (notes : Option String) (updateFail : Bool) (expireFail : Bool)
    (diaryFail : Bool) (st : CoordState) (db : DB) : Out EndResult :=
  match profile, st.activeSession with
  | some pr, some s =>
    if isJudge (some pr) = false ∨ pr.id = "" then ⟨EndResult.rejected, st, db⟩
    else if updateFail then ⟨EndResult.storeError, st, db⟩
    else
      let newNotes := jsOrStr notes s.notes
      let db1 : DB := { db with session_logs := db.session_logs.map (fun r =>
        if r.id = s.id then
          { r with status := SessionStatus.ended, ended_at := some now,
                   notes := newNotes }
        else r) }
      let db2 : DB :=
        if expireFail then db1
        else { db1 with permission_requests := db1.permission_requests.map (fun p =>
          if p.session_id = s.id ∧ p.status = PermissionStatus.pending then
            { p with status := PermissionStatus.expired }
          else p) }
      let db3 : DB :=
        if diaryFail then db2
        else { db2 with case_diary := db2.case_diary ++
          [{ case_id := caseId, action := "SESSION_END", actor_id := pr.id,
             details := { session_id := s.id,
                          duration_minutes :=
                            some (durationMinutes (now - s.started_at)),
                          notes_summary := jsTruthyOpt newNotes } }] }
      ⟨EndResult.ok, { st with activeSession := none, myPermission := none }, db3⟩
  | _, _ => ⟨EndResult.rejected, st, db⟩

/-- Source lines 266–290, `respondToPermission(requestId, grant)`: role
guard only (line 267 — neither the session nor its owning judge is
checked); an update of every row matching `id = requestId` to
`granted`/`denied` with `responded_at`/`responded_by`, regardless of the
row's current status; on success a `fetchPermissions(activeSession?.id)`
refresh and `true`. -/
def respondToPermission (profile : Option Profile) (caseId : String)
    (now : Nat) (requestId : String) (grant : Bool) (updateFail : Bool)
    (fetchFail : Bool) (st : CoordState) (db : DB) : Out RespondResult :=
  match profile with
  | none => ⟨RespondResult.rejected, st, db⟩
  | some pr =>
    if isJudge (some pr) = false ∨ pr.id = "" then
      ⟨RespondResult.rejected, st, db⟩
    else if updateFail then ⟨RespondResult.storeError, st, db⟩
    else
      let db1 : DB := { db with permission_requests :=
        db.permission_requests.map (fun p =>
          if p.id = requestId then
            { p with
                status := if grant then PermissionStatus.granted
                          else PermissionStatus.denied,
                responded_at := some now, responded_by := some pr.id }
          else p) }
      ⟨RespondResult.ok,
       fetchPermissionsFn db1 caseId (some pr)
         (st.activeSession.map (fun s => s.id)) fetchFail st,
       db1⟩

/-- Source lines 231–235: the local duplicate check of `requestPermission`
— the first locally held row by this requester, for this session, with
status pending or granted. -/
def findExisting (st : CoordState) (prId : String) (sessionId : String) :
    Option PermissionRequest :=
  st.permissionRequests.find? (fun p =>
    decide (p.requester_id = prId ∧ p.session_id = sessionId ∧
      (p.status = PermissionStatus.pending ∨ p.status = PermissionStatus.granted)))

/-- Source lines 224–263, `requestPermission()`: the guard
`!activeSession || !profile?.id` (line 225 — note: no role check), the
idempotent early return of an existing pending/granted row, otherwise an
insert of a fresh `pending` row (`newId` assigned by the store) followed by
a `fetchPermissions(activeSession.id)` refresh. -/
def requestPermission (profile : Option Profile) (caseId : String)
    (now : Nat) (newId : String) (insertFail : Bool) (fetchFail : Bool)
    (st : CoordState) (db : DB) : Out ReqResult :=
  match profile, st.activeSession with
  | some pr, some s =>
    if pr.id = "" then ⟨ReqResult.noActiveSession, st, db⟩
    else
      match findExisting st pr.id s.id with
      | some p => ⟨ReqResult.existing p, st, db⟩
      | none =>
        if insertFail then ⟨ReqResult.storeError, st, db⟩
        else
          let newReq : PermissionRequest :=
            { id := newId, session_id := s.id, case_id := caseId,
              requester_id := pr.id, status := PermissionStatus.pending,
              requested_at := now, responded_at := none, responded_by := none,
              requester_name := none }
          let db1 : DB := { db with permission_requests :=
            newReq :: db.permission_requests }
          ⟨ReqResult.created newReq,
           fetchPermissionsFn db1 caseId (some pr) (some s.id) fetchFail st,
           db1⟩
  | _, _ => ⟨ReqResult.noActiveSession, st, db⟩

/-!
Concrete sample data used to instantiate the theorems below.
-/

/-- A legal practitioner (non-judge principal). -/
def lawyerP : Profile := { id := "P", role_category := "lawyer" }

/-- A judge principal. -/
def judgeJ : Profile := { id := "J", role_category := "judiciary" }

/-- A second judge, not the judge of `sessionS1`. -/
def judgeB : Profile := { id := "B", role_category := "judiciary" }

/-- An active session of case `c1` owned by judge `J`, with existing notes. -/
def sessionS1 : CourtSession :=
  { id := "s1", case_id := "c1", judge_id := "J",
    status := SessionStatus.active, started_at := 0, ended_at := none,
    notes := some "prior" }

/-- A granted permission row of a past session `s0`, still granted in the
store (the end-of-session cascade expires only pending rows). -/
def staleGranted : PermissionRequest :=
  { id := "r0", session_id := "s0", case_id := "c1", requester_id := "P",
    status := PermissionStatus.granted, requested_at := 5,
    responded_at := some 6, responded_by := some "J", requester_name := none }

/-- A pending permission row of the active session `s1`. -/
def pendingR1 : PermissionRequest :=
  { id := "r1", session_id := "s1", case_id := "c1", requester_id := "P",
    status := PermissionStatus.pending, requested_at := 3,
    responded_at := none, responded_by := none, requester_name := none }

/-- An expired permission row of a past session. -/
def expiredR2 : PermissionRequest :=
  { id := "r2", session_id := "s0", case_id := "c1", requester_id := "P",
    status := PermissionStatus.expired, requested_at := 4,
    responded_at := none, responded_by := none, requester_name := none }

/-- Coordinator state with no loaded session. -/
def stIdle : CoordState :=
  { activeSession := none, permissionRequests := [], myPermission := none }

/-- Coordinator state holding the active session `s1`. -/
def stActive : CoordState :=
  { activeSession := some sessionS1, permissionRequests := [],
    myPermission := none }

/-- Store holding only the stale granted row of the finished session. -/
def dbStale : DB :=
  { session_logs := [], permission_requests := [staleGranted],
    case_diary := [], profiles := [("P", "Pat")] }

/-- Store holding the active session `s1` and one pending request under it. -/
def dbSession : DB :=
  { session_logs := [sessionS1], permission_requests := [pendingR1],
    case_diary := [], profiles := [("P", "Pat")] }

/-- Store holding a single expired permission row. -/
def dbExpired : DB :=
  { session_logs := [], permission_requests := [expiredR2], case_diary := [],
    profiles := [] }

/-!
C1 — upload-authorization derivation.
-/

/-- C1 (amended): `canUpload` is a pure read over the coordinator state,
true iff the caller's role is judge or the cached own permission
(`myPermission`) has status granted.  The cached permission is not
re-validated against the currently loaded active session, so the
"false whenever no session is active" clause of the original claim does
not hold (see the counterexample). -/
theorem canUpload_iff_judge_or_granted (st : CoordState) (profile : Option Profile) :
    canUpload st profile = true ↔
      (isJudge profile = true ∨
       ∃ p, st.myPermission = some p ∧ p.status = PermissionStatus.granted) := by
  cases h : st.myPermission with
  | none => simp [canUpload, h]
  | some p => simp [canUpload, h, or_comm]

/-- C1 witness: the amended equivalence evaluated at a concrete state. -/
theorem canUpload_iff_judge_or_granted_witness :
    canUpload stIdle (some lawyerP) = true ↔
      (isJudge (some lawyerP) = true ∨
       ∃ p, stIdle.myPermission = some p ∧ p.status = PermissionStatus.granted) :=
  canUpload_iff_judge_or_granted stIdle (some lawyerP)

/-- C1 counterexample: a non-judge whose granted request of a FINISHED
session is still in the store.  With no session loaded, a realtime
permission event makes the handler call `fetchPermissions(undefined)`
(lines 349–351), which reloads all rows of the case and re-caches the
stale granted row as `myPermission`; `canUpload` then returns true even
though no session is active — refuting the original claim's
"no active session implies canUpload() = false". -/
theorem canUpload_true_with_no_active_session :
    isJudge (some lawyerP) = false ∧
    (onPermissionEvent (some lawyerP) "c1" false stIdle dbStale).activeSession = none ∧
    canUpload (onPermissionEvent (some lawyerP) "c1" false stIdle dbStale)
      (some lawyerP) = true := by
  decide

/-!
C10 — a `paused` realtime session row is ignored.
-/

/-- C10: a realtime `session_logs` event (any event type) whose row has
status `paused` leaves the coordinator state completely unchanged and
issues no permission reload; only `active` and `ended` rows reconcile. -/
theorem paused_session_event_noop (profile : Option Profile) (caseId : String)
    (ev : EventType) (row : CourtSession) (queryFail : Bool)
    (st : CoordState) (db : DB) (h : row.status = SessionStatus.paused) :
    onSessionEvent profile caseId ev row queryFail st db = (st, false) := by
  cases ev <;> simp [onSessionEvent, h]

/-- C10 witness: a concrete paused row delivered as an UPDATE. -/
theorem paused_session_event_noop_witness :
    ({ sessionS1 with status := SessionStatus.paused } : CourtSession).status =
      SessionStatus.paused ∧
    onSessionEvent (some lawyerP) "c1" EventType.updateEv
      { sessionS1 with status := SessionStatus.paused } false stActive dbSession =
      (stActive, false) :=
  ⟨rfl, paused_session_event_noop (some lawyerP) "c1" EventType.updateEv
    { sessionS1 with status := SessionStatus.paused } false stActive dbSession rfl⟩

/-!
C3 — a second `startSession` while one is active.
-/

/-- C3: when the coordinator already holds an active session, a judge's
`startSession` call is rejected with the already-active condition
(toast `A session is already active`, line 122), performs no store write
and leaves both the coordinator state and the store unchanged. -/
theorem startSession_rejected_when_active (pr : Profile) (caseId : String)
    (now : Nat) (newId : String) (insertFail diaryFail : Bool)
    (st : CoordState) (db : DB) (s : CourtSession)
    (hj : isJudge (some pr) = true) (hid : pr.id ≠ "") (hc : caseId ≠ "")
    (hs : st.activeSession = some s) :
    startSession (some pr) caseId now newId insertFail diaryFail st db =
      ⟨StartResult.alreadyActive, st, db⟩ := by
  simp [startSession, hj, hid, hc, hs]

/-- C3 witness: judge `J` starting again over the loaded session `s1`. -/
theorem startSession_rejected_when_active_witness :
    isJudge (some judgeJ) = true ∧
    startSession (some judgeJ) "c1" 9 "s9" false false stActive dbSession =
      ⟨StartResult.alreadyActive, stActive, dbSession⟩ :=
  ⟨by decide, startSession_rejected_when_active judgeJ "c1" 9 "s9" false false
    stActive dbSession sessionS1 (by decide) (by decide) (by decide) rfl⟩

/-!
C5 — judge-exclusivity of the three judge operations.
-/

/-- C5: a principal whose role is not judge has `startSession`,
`endSession` and `respondToPermission` all rejected at the role guard
(the `Unauthorized` condition), with no store write reached and the
coordinator state unchanged — for every argument and failure-flag
combination. -/
theorem nonjudge_ops_rejected (profile : Option Profile) (caseId : String)
    (now : Nat) (newId requestId : String) (notes : Option String)
    (grant : Bool) (f1 f2 f3 f4 f5 f6 f7 : Bool) (st : CoordState) (db : DB)
    (hnj : isJudge profile = false) :
    startSession profile caseId now newId f1 f2 st db =
      ⟨StartResult.notAllowed, st, db⟩ ∧
    endSession profile caseId now notes f3 f4 f5 st db =
      ⟨EndResult.rejected, st, db⟩ ∧
    respondToPermission profile caseId now requestId grant f6 f7 st db =
      ⟨RespondResult.rejected, st, db⟩ := by
  refine ⟨?_, ?_, ?_⟩
  · cases profile with
    | none => rfl
    | some pr => simp [startSession, hnj]
  · cases profile with
    | none => cases h : st.activeSession <;> simp [endSession, h]
    | some pr => cases h : st.activeSession <;> simp [endSession, h, hnj]
  · cases profile with
    | none => rfl
    | some pr => simp [respondToPermission, hnj]

/-- C5 witness: the practitioner `P` cannot start a session. -/
theorem nonjudge_ops_rejected_witness :
    isJudge (some lawyerP) = false ∧
    startSession (some lawyerP) "c1" 9 "s9" false false stActive dbSession =
      ⟨StartResult.notAllowed, stActive, dbSession⟩ :=
  ⟨by decide, (nonjudge_ops_rejected (some lawyerP) "c1" 9 "s9" "r1" none true
    false false false false false false false stActive dbSession (by decide)).1⟩

/-!
C9 — `requestPermission` preconditions.
-/

/-- C9 (amended): `requestPermission` requires an active session — with
none loaded it fails with the `NoActiveSession` condition (toast
`No active session`, line 226) and inserts nothing, for every principal.
The original claim's second half is dropped: the source has no role check
here, so a judge caller creates a request like any other caller (see the
counterexample). -/
theorem requestPermission_requires_active_session (profile : Option Profile)
    (caseId : String) (now : Nat) (newId : String) (insertFail fetchFail : Bool)
    (st : CoordState) (db : DB) (h : st.activeSession = none) :
    requestPermission profile caseId now newId insertFail fetchFail st db =
      ⟨ReqResult.noActiveSession, st, db⟩ := by
  cases profile <;> simp [requestPermission, h]

/-- C9 witness: the practitioner with no loaded session. -/
theorem requestPermission_requires_active_session_witness :
    stIdle.activeSession = none ∧
    requestPermission (some lawyerP) "c1" 50 "n1" false false stIdle dbStale =
      ⟨ReqResult.noActiveSession, stIdle, dbStale⟩ :=
  ⟨rfl, requestPermission_requires_active_session (some lawyerP) "c1" 50 "n1"
    false false stIdle dbStale rfl⟩

/-- C9 counterexample: `requestPermission` has no role guard (line 225
checks only the session and the profile id), so judge `J` with an active
session and no prior request inserts a pending PermissionRequest with
himself as requester — refuting "for every caller whose role is judge no
PermissionRequest is ever created". -/
theorem judge_requestPermission_inserts :
    isJudge (some judgeJ) = true ∧
    (requestPermission (some judgeJ) "c1" 50 "n1" false false stActive
      dbSession).db.permission_requests.map (fun p => p.requester_id) =
      ["J", "P"] ∧
    (requestPermission (some judgeJ) "c1" 50 "n1" false false stActive
      dbSession).db.permission_requests.map (fun p => p.status) =
      [PermissionStatus.pending, PermissionStatus.pending] := by
  decide

/-!
C4 — idempotent permission requests.
-/

/-- C4: `requestPermission` is idempotent per requester within the
active session.  If the locally held list already contains a row of this
requester for this session with status pending or granted, the call
returns that row and changes nothing (in particular no insert, for every
failure-flag value); otherwise it inserts exactly one fresh row with
status pending, requester the caller and session the active one. -/
theorem requestPermission_idempotent (pr : Profile) (caseId : String)
    (now : Nat) (newId : String) (insertFail fetchFail : Bool)
    (st : CoordState) (db : DB) (s : CourtSession)
    (hs : st.activeSession = some s) (hid : pr.id ≠ "") :
    (∀ p, findExisting st pr.id s.id = some p →
      requestPermission (some pr) caseId now newId insertFail fetchFail st db =
        ⟨ReqResult.existing p, st, db⟩) ∧
    (findExisting st pr.id s.id = none →
      ∃ q, requestPermission (some pr) caseId now newId false fetchFail st db =
          ⟨ReqResult.created q,
           fetchPermissionsFn
             { db with permission_requests := q :: db.permission_requests }
             caseId (some pr) (some s.id) fetchFail st,
           { db with permission_requests := q :: db.permission_requests }⟩ ∧
        q.status = PermissionStatus.pending ∧ q.requester_id = pr.id ∧
        q.session_id = s.id ∧ q.requested_at = now) := by
  constructor
  · intro p hp
    simp [requestPermission, hs, hid, hp]
  · intro hnone
    refine ⟨{ id := newId, session_id := s.id, case_id := caseId,
              requester_id := pr.id, status := PermissionStatus.pending,
              requested_at := now, responded_at := none, responded_by := none,
              requester_name := none }, ?_, rfl, rfl, rfl, rfl⟩
    simp [requestPermission, hs, hid, hnone]

/-- C4 witness: with the pending row `r1` already held locally, a repeat
call returns it and leaves the state and store untouched. -/
theorem requestPermission_idempotent_witness :
    findExisting
        { activeSession := some sessionS1, permissionRequests := [pendingR1],
          myPermission := some pendingR1 } "P" "s1" = some pendingR1 ∧
    requestPermission (some lawyerP) "c1" 7 "n1" false false
        { activeSession := some sessionS1, permissionRequests := [pendingR1],
          myPermission := some pendingR1 } dbSession =
      ⟨ReqResult.existing pendingR1,
       { activeSession := some sessionS1, permissionRequests := [pendingR1],
         myPermission := some pendingR1 }, dbSession⟩ :=
  ⟨by decide, (requestPermission_idempotent lawyerP "c1" 7 "n1" false false
    { activeSession := some sessionS1, permissionRequests := [pendingR1],
      myPermission := some pendingR1 } dbSession sessionS1 rfl (by decide)).1
    pendingR1 (by decide)⟩

/-!
Shared helper: the happy-path output of `endSession`.
-/

/-- Output of `endSession` when the session update, the bulk-expire and
the diary append all succeed: session row set to ended with
`ended_at = now` and `notes = notes || existing`, the session's pending
permission rows expired, one SESSION_END diary entry appended, local
session and own permission cleared. -/
theorem endSession_ok_eq (pr : Profile) (caseId : String) (now : Nat)
    (notes : Option String) (st : CoordState) (db : DB) (s : CourtSession)
    (hj : isJudge (some pr) = true) (hid : pr.id ≠ "")
    (hs : st.activeSession = some s) :
    endSession (some pr) caseId now notes false false false st db =
      ⟨EndResult.ok,
       { st with activeSession := none, myPermission := none },
       { db with
           session_logs := db.session_logs.map (fun r =>
             if r.id = s.id then
               { r with status := SessionStatus.ended, ended_at := some now,
                        notes := jsOrStr notes s.notes }
             else r),
           permission_requests := db.permission_requests.map (fun p =>
             if p.session_id = s.id ∧ p.status = PermissionStatus.pending then
               { p with status := PermissionStatus.expired }
             else p),
           case_diary := db.case_diary ++
             [{ case_id := caseId, action := "SESSION_END", actor_id := pr.id,
                details := { session_id := s.id,
                             duration_minutes :=
                               some (durationMinutes (now - s.started_at)),
                             notes_summary := jsTruthyOpt (jsOrStr notes s.notes) } }] }⟩ := by
  simp [endSession, hs, hj, hid]

/-!
C2 — the end-session cascade.
-/

/-- C2 (amended): a successful `endSession(notes?)` by a judge over the
loaded active session expires exactly the pending requests of that
session (granted and denied rows are unchanged), sets the session row to
ended with a non-null `ended_at = now` and notes equal to the provided
notes if provided and non-empty and otherwise the existing notes
(JavaScript `||`, so a provided empty string keeps the existing notes),
appends exactly one SESSION_END diary entry whose
`details.duration_minutes` is `round((ended_at − started_at)/60000)`, and
clears the coordinator's current session and own permission. -/
theorem endSession_cascade (pr : Profile) (caseId : String) (now : Nat)
    (notes : Option String) (st : CoordState) (db : DB) (s : CourtSession)
    (hj : isJudge (some pr) = true) (hid : pr.id ≠ "")
    (hs : st.activeSession = some s) (_hnow : s.started_at ≤ now) :
    (endSession (some pr) caseId now notes false false false st db).result =
      EndResult.ok ∧
    (endSession (some pr) caseId now notes false false false st db).db.permission_requests =
      db.permission_requests.map (fun p =>
        if p.session_id = s.id ∧ p.status = PermissionStatus.pending then
          { p with status := PermissionStatus.expired }
        else p) ∧
    (∀ r ∈ (endSession (some pr) caseId now notes false false false st db).db.session_logs,
      r.id = s.id →
        r.status = SessionStatus.ended ∧ r.ended_at = some now ∧
        r.notes = jsOrStr notes s.notes) ∧
    (endSession (some pr) caseId now notes false false false st db).db.case_diary =
      db.case_diary ++
        [{ case_id := caseId, action := "SESSION_END", actor_id := pr.id,
           details := { session_id := s.id,
                        duration_minutes :=
                          some (durationMinutes (now - s.started_at)),
                        notes_summary := jsTruthyOpt (jsOrStr notes s.notes) } }] ∧
    (endSession (some pr) caseId now notes false false false st db).state.activeSession = none ∧
    (endSession (some pr) caseId now notes false false false st db).state.myPermission = none := by
  have H := endSession_ok_eq pr caseId now notes st db s hj hid hs
  refine ⟨by rw [H], by rw [H], ?_, by rw [H], by rw [H], by rw [H]⟩
  rw [H]
  intro r hr hrid
  rcases List.mem_map.mp hr with ⟨r0, hr0, hmap⟩
  by_cases h0 : r0.id = s.id
  · rw [if_pos h0] at hmap
    rw [← hmap]
    exact ⟨rfl, rfl, rfl⟩
  · rw [if_neg h0] at hmap
    rw [← hmap] at hrid
    exact absurd hrid h0

/-- C2 witness: judge `J` ends `s1` after 47 minutes; the call succeeds. -/
theorem endSession_cascade_witness :
    sessionS1.started_at ≤ 2820000 ∧
    (endSession (some judgeJ) "c1" 2820000 none false false false stActive
      dbSession).result = EndResult.ok :=
  ⟨by decide, (endSession_cascade judgeJ "c1" 2820000 none stActive dbSession
    sessionS1 (by decide) (by decide) rfl (by decide)).1⟩

/-- C2 counterexample: the source merges notes with JavaScript `||`
(line 168), not `??`.  Providing the empty string — which is provided,
but falsy — keeps the existing notes: ending `s1` (existing notes
`prior`) with notes `""` leaves the stored notes at `prior`, refuting
"notes equal to the provided notes if provided". -/
theorem endSession_empty_notes_keep_existing :
    (endSession (some judgeJ) "c1" 600000 (some "") false false false
      stActive dbSession).result = EndResult.ok ∧
    (endSession (some judgeJ) "c1" 600000 (some "") false false false
      stActive dbSession).db.session_logs.map (fun r => r.notes) =
      [some "prior"] ∧
    (some "prior" : Option String) ≠ some "" := by
  decide

/-!
C6 — "the session's own judge" is not checked.
-/

/-- C6 (amended): `endSession` and `respondToPermission` gate only on the
caller's role (lines 158 and 267) — the caller is never compared with the
loaded session's `judge_id`, so a judge who is not the session's judge is
not rejected: with the writes succeeding, both operations complete with
their success result. -/
theorem judge_role_sufficient_for_end_and_respond (pr : Profile)
    (caseId : String) (now : Nat) (notes : Option String)
    (requestId : String) (grant : Bool) (fetchFail : Bool)
    (st : CoordState) (db : DB) (s : CourtSession)
    (hj : isJudge (some pr) = true) (hid : pr.id ≠ "")
    (hs : st.activeSession = some s) (_hne : pr.id ≠ s.judge_id) :
    (endSession (some pr) caseId now notes false false false st db).result =
      EndResult.ok ∧
    (respondToPermission (some pr) caseId now requestId grant false fetchFail
      st db).result = RespondResult.ok := by
  constructor
  · simp [endSession, hs, hj, hid]
  · simp [respondToPermission, hj, hid]

/-- C6 witness: judge `B` (not the judge of `s1`) ends the session. -/
theorem judge_role_sufficient_witness :
    judgeB.id ≠ sessionS1.judge_id ∧
    (endSession (some judgeB) "c2" 60000 none false false false stActive
      dbSession).result = EndResult.ok :=
  ⟨by decide, (judge_role_sufficient_for_end_and_respond judgeB "c2" 60000
    none "r1" true false stActive dbSession sessionS1 (by decide) (by decide)
    rfl (by decide)).1⟩

/-- C6 counterexample: judge `B` is a judge but not the judge of the
loaded session `s1` (owned by `J`); yet `endSession` returns success and
writes to the store, and so does `respondToPermission` — refuting
"rejected with Unauthorized and perform no repository write". -/
theorem foreign_judge_not_rejected :
    isJudge (some judgeB) = true ∧ judgeB.id ≠ sessionS1.judge_id ∧
    (endSession (some judgeB) "c1" 60000 none false false false stActive
      dbSession).result = EndResult.ok ∧
    (endSession (some judgeB) "c1" 60000 none false false false stActive
      dbSession).db ≠ dbSession ∧
    (respondToPermission (some judgeB) "c1" 60000 "r1" true false false
      stActive dbSession).result = RespondResult.ok ∧
    (respondToPermission (some judgeB) "c1" 60000 "r1" true false false
      stActive dbSession).db ≠ dbSession := by
  decide

/-!
C7 — which status transitions the coordinator performs.
-/

/-- C7 (amended): the end-of-session bulk-expire touches only pending
rows (so granted, denied and expired rows survive `endSession`
unchanged), and `respondToPermission` rewrites exactly the rows matching
the given id to granted or denied with `responded_at`/`responded_by` set —
but it does so regardless of the row's current status, so granted, denied
and expired are not terminal under `respondToPermission` (see the
counterexample). -/
theorem permission_status_transitions (pr : Profile) (caseId : String)
    (now : Nat) (requestId : String) (grant : Bool) (fetchFail : Bool)
    (notes : Option String) (st : CoordState) (db : DB) (s : CourtSession)
    (hj : isJudge (some pr) = true) (hid : pr.id ≠ "")
    (hs : st.activeSession = some s) :
    (respondToPermission (some pr) caseId now requestId grant false fetchFail
        st db).db.permission_requests =
      db.permission_requests.map (fun p =>
        if p.id = requestId then
          { p with
              status := if grant then PermissionStatus.granted
                        else PermissionStatus.denied,
              responded_at := some now, responded_by := some pr.id }
        else p) ∧
    (∀ p ∈ db.permission_requests, p.status ≠ PermissionStatus.pending →
      p ∈ (endSession (some pr) caseId now notes false false false st
        db).db.permission_requests) := by
  constructor
  · simp [respondToPermission, hj, hid]
  · intro p hp hnp
    rw [endSession_ok_eq pr caseId now notes st db s hj hid hs]
    refine List.mem_map.mpr ⟨p, hp, ?_⟩
    rw [if_neg]
    exact fun h => hnp h.2

/-- C7 witness: ending `s1` leaves the stale granted row `r0` in place. -/
theorem permission_status_transitions_witness :
    staleGranted.status ≠ PermissionStatus.pending ∧
    staleGranted ∈ (endSession (some judgeJ) "c1" 60000 none false false
      false stActive dbStale).db.permission_requests :=
  ⟨by decide, (permission_status_transitions judgeJ "c1" 60000 "rX" true false
    none stActive dbStale sessionS1 (by decide) (by decide) rfl).2
    staleGranted (by decide) (by decide)⟩

/-- C7 counterexample: `respondToPermission` filters only on the row id
(line 279), so judge `J` granting the id of the EXPIRED row `r2` rewrites
it to granted — an expired→granted transition, refuting the terminality
of `expired`. -/
theorem respond_reopens_expired_request :
    dbExpired.permission_requests.map (fun p => p.status) =
      [PermissionStatus.expired] ∧
    (respondToPermission (some judgeJ) "c1" 100 "r2" true false false stIdle
      dbExpired).db.permission_requests.map (fun p => p.status) =
      [PermissionStatus.granted] := by
  decide

/-!
C8 — all-or-nothing error handling.
-/

/-- C8 (amended): every operation is all-or-nothing with respect to its
PRIMARY store write — if that write fails, the operation reports the
store failure and leaves the coordinator state and (modelled) store
unchanged.  The auxiliary writes are exempt: `endSession`'s bulk-expire
result is never read (lines 179–183), so its failure is ignored — the
operation still reports success and clears the local state (see the
counterexample) — and diary appends are likewise fire-and-forget. -/
theorem primary_write_all_or_nothing (pr : Profile) (caseId : String)
    (now : Nat) (newId requestId : String) (notes : Option String)
    (grant : Bool) (diaryFail expireFail diaryFail2 fetchFail fetchFail2 : Bool)
    (st0 st : CoordState) (db : DB) (s : CourtSession)
    (hj : isJudge (some pr) = true) (hid : pr.id ≠ "") (hc : caseId ≠ "")
    (h0 : st0.activeSession = none) (hs : st.activeSession = some s)
    (hfind : findExisting st pr.id s.id = none) :
    startSession (some pr) caseId now newId true diaryFail st0 db =
      ⟨StartResult.storeError, st0, db⟩ ∧
    endSession (some pr) caseId now notes true expireFail diaryFail2 st db =
      ⟨EndResult.storeError, st, db⟩ ∧
    respondToPermission (some pr) caseId now requestId grant true fetchFail
      st db = ⟨RespondResult.storeError, st, db⟩ ∧
    requestPermission (some pr) caseId now newId true fetchFail2 st db =
      ⟨ReqResult.storeError, st, db⟩ ∧
    (endSession (some pr) caseId now notes false expireFail diaryFail2 st
      db).result = EndResult.ok ∧
    (endSession (some pr) caseId now notes false expireFail diaryFail2 st
      db).state = { st with activeSession := none, myPermission := none } := by
  refine ⟨?_, ?_, ?_, ?_, ?_, ?_⟩
  · simp [startSession, hj, hid, hc, h0]
  · simp [endSession, hs, hj, hid]
  · simp [respondToPermission, hj, hid]
  · simp [requestPermission, hs, hid, hfind]
  · simp [endSession, hs, hj, hid]
  · simp [endSession, hs, hj, hid]

/-- C8 witness: a failing session update aborts `endSession` with no
state change. -/
theorem primary_write_all_or_nothing_witness :
    isJudge (some judgeJ) = true ∧
    endSession (some judgeJ) "c1" 60000 none true false false stActive
      dbSession = ⟨EndResult.storeError, stActive, dbSession⟩ :=
  ⟨by decide, (primary_write_all_or_nothing judgeJ "c1" 60000 "n1" "r1" none
    true false false false false false stIdle stActive dbSession sessionS1
    (by decide) (by decide) (by decide) rfl rfl (by decide)).2.1⟩

/-- C8 counterexample: `endSession` with the session update succeeding
but the bulk-expire failing still reports success and clears the local
session, while the pending request `r1` of the session stays pending in
the store — refuting "if any required repository write fails (including
the auxiliary bulk-expire) the in-memory state is left unchanged and the
operation reports failure". -/
theorem endSession_ignores_expire_failure :
    (endSession (some judgeJ) "c1" 60000 none false true false stActive
      dbSession).result = EndResult.ok ∧
    (endSession (some judgeJ) "c1" 60000 none false true false stActive
      dbSession).state.activeSession = none ∧
    (endSession (some judgeJ) "c1" 60000 none false true false stActive
      dbSession).db.permission_requests.map (fun p => p.status) =
      [PermissionStatus.pending] := by
  decide

end ProjectSpark
